import Mathlib

/-!
Shallow embedding of the rhid HID library (src/rhid_win.c).

The library enumerates HID devices, expands their driver-supplied button and
value capability tables into per-usage descriptor arrays, and repeatedly
decodes raw input reports into button/value state arrays under non-blocking
reads.  Driver calls (HidP_GetButtonCaps, HidP_GetUsagesEx, ReadFile, ...)
are modelled as oracle inputs: a value of `Option`/`Bool` parameters stands
for the answer the driver would give, and every definition below is a direct
translation of the corresponding C control flow.
-/

/-- Raw button capability entry, the fields of HIDP_BUTTON_CAPS read by
rhid_get_devices: ReportID, UsagePage, IsRange, Range.UsageMin,
Range.UsageMax, NotRange.Usage. -/
structure ButtonCap where
  reportID : Nat
  usagePage : Nat
  isRange : Bool
  usageMin : Nat
  usageMax : Nat
  usage : Nat
deriving Repr, DecidableEq

/-- One entry of the device's button_descriptors array
(fields report_id, page, usage, index in the C struct). -/
structure ButtonDescriptor where
  report_id : Nat
  page : Nat
  usage : Nat
  index : Nat
deriving Repr, DecidableEq

/-- Raw value capability entry, the fields of HIDP_VALUE_CAPS read by
rhid_get_devices. -/
structure ValueCap where
  reportID : Nat
  usagePage : Nat
  isRange : Bool
  usageMin : Nat
  usageMax : Nat
  usage : Nat
  logicalMin : Int
  logicalMax : Int
deriving Repr, DecidableEq

/-- One entry of the device's value_descriptors array. -/
structure ValueDescriptor where
  report_id : Nat
  page : Nat
  usage : Nat
  logical_min : Int
  logical_max : Int
  index : Nat
deriving Repr, DecidableEq

/-- The all-zero button descriptor: the state of a button_descriptors array
slot after the memset at the start of the enumeration loop
(src/rhid_win.c:198), before anything is written to it. -/
def zeroButtonDescriptor : ButtonDescriptor := ⟨0, 0, 0, 0⟩

/-- Usages swept by the inner range loop of the builder
(src/rhid_win.c:384-398): u from Range.UsageMin up to Range.UsageMax
inclusive; empty when UsageMin exceeds UsageMax, exactly as the C loop
condition gives. -/
def button_range_usages (c : ButtonCap) : List Nat :=
  (List.range (c.usageMax + 1 - c.usageMin)).map (fun t => c.usageMin + t)

/-- One iteration of the outer button-capability loop of rhid_get_devices
(src/rhid_win.c:379-412) acting on (descriptor array, btn_desc_idx).
Field-by-field translation: ReportID is written at the current index first
(line 380); a range entry then writes page/usage/index for each usage in the
range, advancing btn_desc_idx each time (lines 383-399); a non-range entry
writes page/usage/index at the current index (lines 400-409); finally
btn_desc_idx is incremented once more at line 411 in either case. -/
def emit_button_entry (st : (Nat → ButtonDescriptor) × Nat) (c : ButtonCap) :
    (Nat → ButtonDescriptor) × Nat :=
  let a := st.1
  let idx := st.2
  let a1 : Nat → ButtonDescriptor :=
    fun j => if j = idx then { a j with report_id := c.reportID } else a j
  if c.isRange then
    let st2 := (button_range_usages c).foldl
      (fun (p : (Nat → ButtonDescriptor) × Nat) u =>
        (fun j => if j = p.2 then
            { p.1 j with page := c.usagePage, usage := u, index := p.2 }
          else p.1 j,
         p.2 + 1)) (a1, idx)
    (st2.1, st2.2 + 1)
  else
    (fun j => if j = idx then
        { a1 j with page := c.usagePage, usage := c.usage, index := idx }
      else a1 j,
     idx + 1)

/-- The full button-descriptor build loop of rhid_get_devices
(src/rhid_win.c:378-412): starting from the zeroed array and btn_desc_idx 0,
process every raw capability entry in table order.  Returns the final array
and the final btn_desc_idx. -/
def build_button_descriptors (caps : List ButtonCap) :
    (Nat → ButtonDescriptor) × Nat :=
  caps.foldl emit_button_entry (fun _ => zeroButtonDescriptor, 0)

/-- Modelled from the spec: number of button descriptors an entry is
supposed to produce, "a capability declared as a usage range [min, max]
expands to (max - min + 1) descriptors", one for a single usage.  Used to
compare the spec's expanded count with what the code checks. -/
def entry_descriptor_count (c : ButtonCap) : Nat :=
  if c.isRange then c.usageMax + 1 - c.usageMin else 1

/-- Modelled from the spec: the range-expanded button-descriptor count of a
raw capability table, the quantity the spec says is compared against
RHID_MAX_BUTTON_CAPS. -/
def expanded_button_count (caps : List ButtonCap) : Nat :=
  (caps.map entry_descriptor_count).sum

/-- Value-descriptor assignment for raw entry k
(src/rhid_win.c:460-482): report_id, page, usage (for a ranged value
capability only Range.UsageMax is recorded), logical bounds, and index = k. -/
def build_value_descriptor (k : Nat) (c : ValueCap) : ValueDescriptor :=
  { report_id := c.reportID
    page := c.usagePage
    usage := if c.isRange then c.usageMax else c.usage
    logical_min := c.logicalMin
    logical_max := c.logicalMax
    index := k }

/-- The value-descriptor loop of rhid_get_devices (src/rhid_win.c:460-482):
entries are emitted 1:1 with the raw table, in table order. -/
def build_value_descriptors (caps : List ValueCap) : List ValueDescriptor :=
  caps.enum.map (fun p => build_value_descriptor p.1 p.2)

/-- The HIDP_CAPS header fields read by rhid_get_devices. -/
structure DevCapsHeader where
  usagePage : Nat
  usage : Nat
  inputReportByteLength : Nat
  numberInputButtonCaps : Nat
  numberInputValueCaps : Nat
deriving Repr, DecidableEq

/-- Oracle for the per-device external calls made inside the enumeration
loop of rhid_get_devices.  Each field is the outcome the corresponding
driver call would report for this device: `ifaceOk`/`noMoreItems` for
SetupDiEnumDeviceInterfaces, `detailOk` for
SetupDiGetDeviceInterfaceDetailA, `openOk` for the CreateFileA attempts
(true when at least one share-mode attempt succeeds), `attrsOk` plus the id
fields for HidD_GetAttributes, `preparsedOk` for HidD_GetPreparsedData,
`capsResult` for HidP_GetCaps, `buttonCapsResult`/`valueCapsResult` for
HidP_GetButtonCaps/HidP_GetValueCaps (none = non-success status), and
`maxUsageListLength` for HidP_MaxUsageListLength. -/
structure DevOracle where
  ifaceOk : Bool := true
  noMoreItems : Bool := false
  detailOk : Bool := true
  openOk : Bool := true
  attrsOk : Bool := true
  vendorId : Nat := 0
  productId : Nat := 0
  version : Nat := 0
  preparsedOk : Bool := true
  capsResult : Option DevCapsHeader := none
  buttonCapsResult : Option (List ButtonCap) := none
  valueCapsResult : Option (List ValueCap) := none
  maxUsageListLength : Nat := 0

/-- The slice of rhid_device_t that rhid_get_devices writes (path and the
manufacturer/product name strings are omitted: no claim concerns them).
`handle` is true while the CreateFileA handle is held and false once it is
NULL.  The button_descriptors array is modelled as a total function from
slot position to descriptor so that writes past any fixed capacity, and
untouched (zeroed) slots, stay visible. -/
structure DeviceRec where
  handle : Bool
  vendor_id : Nat
  product_id : Nat
  version : Nat
  cap_button_count : Nat
  cap_value_count : Nat
  button_descriptors : Nat → ButtonDescriptor
  value_descriptors : List ValueDescriptor
  usage_page : Nat
  usage : Nat
  button_count : Nat
  value_count : Nat
  report_size : Nat

/-- Device record right after the memset at src/rhid_win.c:198. -/
def zeroDevice : DeviceRec :=
  { handle := false
    vendor_id := 0
    product_id := 0
    version := 0
    cap_button_count := 0
    cap_value_count := 0
    button_descriptors := fun _ => zeroButtonDescriptor
    value_descriptors := []
    usage_page := 0
    usage := 0
    button_count := 0
    value_count := 0
    report_size := 0 }

/-- Device record after the open and HidD_GetAttributes steps
(src/rhid_win.c:256-277): the handle is held, and the id fields are filled
only when the attribute query succeeded. -/
def attrStage (o : DevOracle) : DeviceRec :=
  if o.attrsOk then
    { zeroDevice with
        handle := true
        vendor_id := o.vendorId
        product_id := o.productId
        version := o.version }
  else { zeroDevice with handle := true }

/-- The button-capability block of rhid_get_devices
(src/rhid_win.c:338-415) acting on the device record: skipped when the
header count is zero; on a failed HidP_GetButtonCaps only cap_button_count
is set; on success the device is abandoned (handle closed, `continue`) when
the RAW header count exceeds RHID_MAX_BUTTON_CAPS (line 368), otherwise the
descriptor array is built.  `.error` is the `continue` path. -/
def buttonStage (maxB : Nat) (caps : DevCapsHeader) (o : DevOracle)
    (d : DeviceRec) : Except DeviceRec DeviceRec :=
  if caps.numberInputButtonCaps = 0 then .ok d
  else
    match o.buttonCapsResult with
    | none => .ok { d with cap_button_count := caps.numberInputButtonCaps }
    | some bcaps =>
      let d1 := { d with cap_button_count := caps.numberInputButtonCaps }
      if maxB < caps.numberInputButtonCaps then
        .error { d1 with handle := false }
      else
        .ok { d1 with button_descriptors := (build_button_descriptors bcaps).1 }

/-- The value-capability block of rhid_get_devices (src/rhid_win.c:418-485),
analogous to the button block: the device is abandoned when the raw header
count exceeds RHID_MAX_VALUE_CAPS (line 450). -/
def valueStage (maxV : Nat) (caps : DevCapsHeader) (o : DevOracle)
    (d : DeviceRec) : Except DeviceRec DeviceRec :=
  if caps.numberInputValueCaps = 0 then .ok d
  else
    match o.valueCapsResult with
    | none => .ok { d with cap_value_count := caps.numberInputValueCaps }
    | some vcaps =>
      let d1 := { d with cap_value_count := caps.numberInputValueCaps }
      if maxV < caps.numberInputValueCaps then
        .error { d1 with handle := false }
      else
        .ok { d1 with value_descriptors := build_value_descriptors vcaps }

/-- The tail of a successful device iteration (src/rhid_win.c:487-505):
usage page/usage from the header, button_count from
HidP_MaxUsageListLength, value_count and report_size from the header, then
the handle is closed and set to NULL. -/
def finishStage (caps : DevCapsHeader) (o : DevOracle) (d : DeviceRec) :
    DeviceRec :=
  { d with
      usage_page := caps.usagePage
      usage := caps.usage
      button_count := o.maxUsageListLength
      value_count := caps.numberInputValueCaps
      report_size := caps.inputReportByteLength
      handle := false }

/-- One full iteration of the enumeration loop body of rhid_get_devices for
a device whose interface and detail queries succeeded
(src/rhid_win.c:254-505): open (give up keeping the memset record on
failure, line 264), attributes, preparsed data (on failure close the handle
and `continue`, lines 310-316), HidP_GetCaps (same, lines 322-335), then
the button block, the value block, and the finishing assignments. -/
def processDevice (maxB maxV : Nat) (o : DevOracle) : DeviceRec :=
  if o.openOk = false then zeroDevice
  else
    let d1 := attrStage o
    if o.preparsedOk = false then { d1 with handle := false }
    else
      match o.capsResult with
      | none => { d1 with handle := false }
      | some caps =>
        match buttonStage maxB caps o d1 with
        | .error d => d
        | .ok d2 =>
          match valueStage maxV caps o d2 with
          | .error d => d
          | .ok d3 => finishStage caps o d3

/-- The enumeration loop of rhid_get_devices (src/rhid_win.c:196-512) over
the list of devices the caller asked for, one oracle per loop index:
SetupDiEnumDeviceInterfaces failure breaks out cleanly on
ERROR_NO_MORE_ITEMS and aborts with -1 (modelled as `none`) on any other
error; a SetupDiGetDeviceInterfaceDetailA failure also aborts; otherwise the
device is processed and the loop continues. -/
def rhid_get_devices_loop (maxB maxV : Nat) :
    List DevOracle → Option (List DeviceRec)
  | [] => some []
  | o :: os =>
    if o.ifaceOk = false then
      if o.noMoreItems then some [] else none
    else if o.detailOk = false then none
    else
      match rhid_get_devices_loop maxB maxV os with
      | some ds => some (processDevice maxB maxV o :: ds)
      | none => none

/-- Condition under which the button block abandons the device
(src/rhid_win.c:368-376): the block is entered (header count positive), the
capability query succeeded, and the raw header count exceeds the maximum. -/
def ButtonReject (maxB : Nat) (caps : DevCapsHeader) (o : DevOracle) : Prop :=
  0 < caps.numberInputButtonCaps ∧ o.buttonCapsResult.isSome = true ∧
    maxB < caps.numberInputButtonCaps

/-- Condition under which the value block abandons the device
(src/rhid_win.c:450-458). -/
def ValueReject (maxV : Nat) (caps : DevCapsHeader) (o : DevOracle) : Prop :=
  0 < caps.numberInputValueCaps ∧ o.valueCapsResult.isSome = true ∧
    maxV < caps.numberInputValueCaps

instance (maxB : Nat) (caps : DevCapsHeader) (o : DevOracle) :
    Decidable (ButtonReject maxB caps o) := by
  unfold ButtonReject; infer_instance

instance (maxV : Nat) (caps : DevCapsHeader) (o : DevOracle) :
    Decidable (ValueReject maxV caps o) := by
  unfold ValueReject; infer_instance

/-- The four kinds of failure the error policy scopes to a single device:
both open attempts failed, preparsed data unavailable, the HidP_GetCaps
query failed, or a capability maximum was exceeded. -/
def DeviceScopedFailure (maxB maxV : Nat) (o : DevOracle) : Prop :=
  o.openOk = false ∨ o.preparsedOk = false ∨ o.capsResult = none ∨
    (∃ caps, o.capsResult = some caps ∧
      (ButtonReject maxB caps o ∨ ValueReject maxV caps o))

/-- The capability-cache growth step (src/rhid_win.c:339-355 and 419-435):
when the stored count is smaller than the device's header count the buffer
is reallocated to exactly that count and the stored count updated; nothing
happens otherwise. -/
def cache_grow_step (size devCount : Nat) : Nat :=
  if size < devCount then devCount else size

/-- Effect of one enumeration iteration on the button-capability cache
size: the growth check runs only when the device reaches the button block
(open, preparsed and HidP_GetCaps all succeeded) and the header count is
positive. -/
def button_cache_step (s : Nat) (o : DevOracle) : Nat :=
  if o.openOk = true ∧ o.preparsedOk = true then
    match o.capsResult with
    | some caps =>
      if 0 < caps.numberInputButtonCaps then
        cache_grow_step s caps.numberInputButtonCaps
      else s
    | none => s
  else s

/-- Button-capability cache size after a sequence of enumeration
iterations (a pass, or several passes concatenated: the cache is
process-wide and survives between calls to rhid_get_devices). -/
def button_cache_run (init : Nat) (os : List DevOracle) : Nat :=
  os.foldl button_cache_step init

/-- Effect of one enumeration iteration on the value-capability cache size:
the value block is reached only when the button block did not abandon the
device (src/rhid_win.c:375 `continue` skips it). -/
def value_cache_step (maxB : Nat) (s : Nat) (o : DevOracle) : Nat :=
  if o.openOk = true ∧ o.preparsedOk = true then
    match o.capsResult with
    | some caps =>
      if ButtonReject maxB caps o then s
      else if 0 < caps.numberInputValueCaps then
        cache_grow_step s caps.numberInputValueCaps
      else s
    | none => s
  else s

/-- Value-capability cache size after a sequence of enumeration
iterations. -/
def value_cache_run (maxB init : Nat) (os : List DevOracle) : Nat :=
  os.foldl (value_cache_step maxB) init

/-- An active (usage page, usage) pair as returned by HidP_GetUsagesEx. -/
structure UsagePair where
  page : Nat
  usage : Nat
deriving Repr, DecidableEq

/-- The matching test of the button-decode scan (src/rhid_win.c:703-706). -/
def descMatches (d : ButtonDescriptor) (p : UsagePair) : Bool :=
  d.page == p.page && d.usage == p.usage

/-- Processing of one active usage pair in the button phase of rhid_report
(src/rhid_win.c:701-711): linear-scan the descriptor list for the first
match (the `break`), and set the matched descriptor's slot to 1; no match
leaves the state untouched.  `List.set` out of range is a no-op. -/
def button_mark (bd : List ButtonDescriptor) (bs : List Nat) (p : UsagePair) :
    List Nat :=
  match bd.find? (fun d => descMatches d p) with
  | some d => bs.set d.index 1
  | none => bs

/-- Button phase of rhid_report on a successful HidP_GetUsagesEx
(src/rhid_win.c:699-711): clear every button slot to 0 (the memset over
button_count bytes), then mark the slot of each active pair.  `bd` is the
prefix of the descriptor array the loop scans (button_count entries). -/
def buttonPhase (bd : List ButtonDescriptor) (act : List UsagePair)
    (buttons : List Nat) : List Nat :=
  act.foldl (button_mark bd) (buttons.map (fun _ => 0))

/-- Value phase of rhid_report (src/rhid_win.c:757-767): for i below
value_count, HidP_GetUsageValue is asked for descriptor i's (page, usage);
on success the result is stored at slot i, on failure the slot keeps its
previous value and the loop carries on.  The device invariant ties the two
list lengths (both are value_count). -/
def valuePhase (oracle : Nat → Nat → Option Nat) :
    List ValueDescriptor → List Nat → List Nat
  | [], vs => vs
  | _ :: _, [] => []
  | d :: ds, v :: vs =>
    (match oracle d.page d.usage with
     | some w => w
     | none => v) :: valuePhase oracle ds vs

/-- The decode part of rhid_report (src/rhid_win.c:686-770), given the
outcome `report_avaliable` of rhid_read_report (spelling from the source):
when no report is available return 0 leaving both state arrays alone; when
one is available and HidP_GetUsagesEx fails, return -1 before touching any
state (line 696); otherwise run the button phase, then the value phase, and
return 0.  `usagesResult` is the HidP_GetUsagesEx oracle; `valueOracle` the
HidP_GetUsageValue oracle (determined by the raw report bytes). -/
def rhid_report_decode (bd : List ButtonDescriptor)
    (vd : List ValueDescriptor) (report_avaliable : Bool)
    (usagesResult : Option (List UsagePair))
    (valueOracle : Nat → Nat → Option Nat)
    (buttons values : List Nat) : Int × List Nat × List Nat :=
  if report_avaliable then
    match usagesResult with
    | none => (-1, buttons, values)
    | some act =>
      (0, buttonPhase bd act buttons, valuePhase valueOracle vd values)
  else (0, buttons, values)

/-- Outcome of the ReadFile call inside rhid_read_report: completed
synchronously (TRUE), queued (FALSE with ERROR_IO_PENDING), or failed with
any other error. -/
inductive ReadStart where
  | syncDone
  | ioPending
  | failOther
deriving Repr, DecidableEq

/-- Poller state per device: the native is_reading flag and the first byte
of the raw-report buffer (the only byte rhid_read_report writes itself). -/
structure PollState where
  isReading : Bool
  firstByte : Nat
deriving Repr, DecidableEq

/-- Result of one rhid_read_report call: the C return value (1 = fresh
report available, 0 = none), the poller state afterwards, and how many
ReadFile calls were made during the call. -/
structure PollOut where
  ret : Nat
  st : PollState
  readsIssued : Nat
deriving Repr, DecidableEq

/-- The read-issuing tail of rhid_read_report (src/rhid_win.c:566-584):
write report_id into the first report byte, call ReadFile; a failure other
than ERROR_IO_PENDING returns 0 right away; otherwise, if is_reading is 0
it is set to 1 and the call returns 1, else it returns 0. -/
def issue_read (st : PollState) (rid : Nat) (start : ReadStart) : PollOut :=
  let st1 : PollState := { st with firstByte := rid }
  match start with
  | .failOther => ⟨0, st1, 1⟩
  | _ =>
    if st1.isReading = false then ⟨1, { st1 with isReading := true }, 1⟩
    else ⟨0, st1, 1⟩

/-- rhid_read_report (src/rhid_win.c:550-585).  With a read in flight it
first asks GetOverlappedResult (without waiting) how many bytes completed
(`completedBytes`); at least report_size bytes clears is_reading and falls
through to issue the next read, fewer returns 0 with nothing else done.
With no read in flight it goes straight to issuing a read. -/
def rhid_read_report (st : PollState) (reportSize : Nat) (rid : Nat)
    (completedBytes : Nat) (start : ReadStart) : PollOut :=
  if st.isReading then
    if reportSize ≤ completedBytes then
      issue_read { st with isReading := false } rid start
    else ⟨0, st, 0⟩
  else issue_read st rid start

/-- The selection loop of rhid_select_devices (src/rhid_win.c:535-545) over
devices given as (original index, usage_page, usage): on a match the guard
`select_index > selected_count` returns -1, otherwise the pair
(select_index, device index) is appended to the write log and select_index
advances. -/
def rhid_select_aux (f : Nat → Nat → Bool) (cap : Nat) :
    List (Nat × Nat × Nat) → Nat → List (Nat × Nat) → Int × List (Nat × Nat)
  | [], _, ws => (0, ws)
  | d :: ds, si, ws =>
    if f d.2.1 d.2.2 then
      if cap < si then (-1, ws)
      else rhid_select_aux f cap ds (si + 1) (ws ++ [(si, d.1)])
    else rhid_select_aux f cap ds si ws

/-- rhid_select_devices (src/rhid_win.c:528-548) on a device list given as
(usage_page, usage) pairs, with output capacity `cap`.  Returns the C
return value together with the log of writes (output slot, device index)
performed into the caller's `selected` array. -/
def rhid_select_devices (devs : List (Nat × Nat)) (cap : Nat)
    (f : Nat → Nat → Bool) : Int × List (Nat × Nat) :=
  rhid_select_aux f cap devs.enum 0 []

/-- The state buffers of an open device used by the state getters:
button_count/value_count and the buttons/values arrays (allocated with
exactly those lengths in rhid_open, src/rhid_win.c:617-618). -/
structure DeviceBuffers where
  button_count : Nat
  value_count : Nat
  buttons : List Nat
  values : List Nat

/-- rhid_get_buttons_state (src/rhid_win.c:772-780): a caller buffer of
`size` entries; on size < button_count return -1 without touching it, else
memcpy button_count bytes over its front and return 0. -/
def rhid_get_buttons_state (d : DeviceBuffers) (buf : List Nat)
    (size : Nat) : Int × List Nat :=
  if size < d.button_count then (-1, buf)
  else (0, d.buttons.take d.button_count ++ buf.drop d.button_count)

/-- rhid_get_values_state (src/rhid_win.c:781-789): same shape with
value_count 32-bit words. -/
def rhid_get_values_state (d : DeviceBuffers) (buf : List Nat)
    (size : Nat) : Int × List Nat :=
  if size < d.value_count then (-1, buf)
  else (0, d.values.take d.value_count ++ buf.drop d.value_count)

/-- Capability table of the C1 failing input: a range entry (report id 1,
page 9, usages 1..2) followed by a single-usage entry (report id 1, page 9,
usage 5). -/
def c1Caps : List ButtonCap :=
  [⟨1, 9, true, 1, 2, 0⟩, ⟨1, 9, false, 0, 0, 5⟩]

/-- Oracle of the C2 failing input: a device whose single raw button
capability entry is a range over usages 1..5 (expanding to 5 descriptors),
with header count 1 and report byte length 8. -/
def c2Oracle : DevOracle :=
  { capsResult := some ⟨1, 4, 8, 1, 0⟩
    buttonCapsResult := some [⟨1, 9, true, 1, 5, 0⟩]
    maxUsageListLength := 5 }

/-- Value descriptor of the C5 counterexample: page 1, usage 48 (0x30). -/
def c5ValueDescriptor : ValueDescriptor := ⟨0, 1, 48, 0, 255, 0⟩

/-- Value oracle of the C5 counterexample: the decode of the raw report
yields 127 for (page 1, usage 48) and fails elsewhere. -/
def c5Oracle : Nat → Nat → Option Nat :=
  fun p u => if p == 1 && u == 48 then some 127 else none

/-- Oracle of a device whose queries all succeed with the default (empty)
answers: used as the neighbour devices in concrete enumeration runs. -/
def plainOracle : DevOracle := { }

/-- Oracle of a device whose both CreateFileA attempts fail. -/
def openFailOracle : DevOracle := { openOk := false }

/-- C1: the claim requires globally dense slot indices (each emitted
descriptor's slot_index equal to the number of descriptors emitted before
it, no gap between consecutive entries) and every descriptor carrying its
entry's report_id.  Evaluating the builder at the two-entry table c1Caps
shows the code violates both: exactly three descriptors are emitted
(expanded_button_count c1Caps = 3, at slots 0, 1 and 3), yet the extra
btn_desc_idx increment at src/rhid_win.c:411 leaves slot 2 untouched and
gives the single-usage descriptor slot_index 3 instead of 2, and the second
descriptor of the range carries report_id 0 instead of the entry's 1.  The
per-entry expansion itself (usages 1,2 ascending, then 5) is as claimed. -/
theorem c1_button_builder_gap_eval :
    (build_button_descriptors c1Caps).1 0 = ⟨1, 9, 1, 0⟩ ∧
    (build_button_descriptors c1Caps).1 1 = ⟨0, 9, 2, 1⟩ ∧
    (build_button_descriptors c1Caps).1 2 = zeroButtonDescriptor ∧
    (build_button_descriptors c1Caps).1 3 = ⟨1, 9, 5, 3⟩ ∧
    (build_button_descriptors c1Caps).2 = 4 ∧
    expanded_button_count c1Caps = 3 := by
  refine ⟨rfl, rfl, rfl, rfl, rfl, rfl⟩

/-- C2: the claim requires rejection (TooManyCapabilities) exactly when the
range-expanded button-descriptor count exceeds RHID_MAX_BUTTON_CAPS.  With
the maximum set to 2, c2Oracle's device has one raw entry expanding to 5
descriptors; the check at src/rhid_win.c:368 compares only the raw header
count (1), so the device is fully processed (report_size gets set to 8,
which no abandoned device gets) and the builder writes descriptors at slots
2..4, past the fixed-capacity array — here slot 4 holds usage 5. -/
theorem c2_expanded_overflow_accepted_eval :
    (processDevice 2 64 c2Oracle).report_size = 8 ∧
    (processDevice 2 64 c2Oracle).handle = false ∧
    (processDevice 2 64 c2Oracle).button_descriptors 4 = ⟨0, 9, 5, 4⟩ ∧
    expanded_button_count [⟨1, 9, true, 1, 5, 0⟩] = 5 ∧ 2 < 5 := by
  refine ⟨rfl, rfl, rfl, rfl, by decide⟩

/-- C4: the claim requires that with output capacity 1 and two matching
devices the function writes only output slot 0 and returns
SelectionOverflow (-1).  The guard at src/rhid_win.c:537 uses a strict
comparison, so the code writes both slot 0 and slot 1 (one entry past the
capacity) and returns 0, claiming success. -/
theorem c4_select_devices_overflow_eval :
    rhid_select_devices [(1, 2), (1, 2)] 1 (fun _ _ => true)
      = (0, [(0, 0), (1, 1)]) := by
  rfl

/-- C3 counterexample: the claim says a poll in the Idle state returns "no
fresh report yet" (return value 0) for that call.  From the Idle state
(is_reading false) with the read queued asynchronously, rhid_read_report
returns 1 ("fresh report available", src/rhid_win.c:579-582): the one read
is issued, the state becomes ReadPending and the first report byte gets the
report id, but the return value contradicts the claim. -/
theorem c3_idle_poll_counterexample :
    rhid_read_report ⟨false, 0⟩ 8 3 0 ReadStart.ioPending = ⟨1, ⟨true, 3⟩, 1⟩ ∧
    (rhid_read_report ⟨false, 0⟩ 8 3 0 ReadStart.ioPending).ret ≠ 0 := by
  refine ⟨rfl, by decide⟩

/-- C5 counterexample: the claim says the value phase runs regardless of
the button phase's active-usage query failing.  With one value descriptor
whose query would decode 127, a fresh report and a failed HidP_GetUsagesEx,
rhid_report returns -1 at src/rhid_win.c:696 leaving the value slot at its
previous 0 — although the value phase, had it run as claimed, would have
stored 127. -/
theorem c5_value_phase_skipped_counterexample :
    rhid_report_decode [] [c5ValueDescriptor] true none c5Oracle [] [0]
      = (-1, [], [0]) ∧
    valuePhase c5Oracle [c5ValueDescriptor] [0] = [127] := by
  refine ⟨rfl, rfl⟩

/-- C6: when the active-usage query fails during a decode cycle with a
fresh report, rhid_report returns -1 (the failure is reported to the
caller) before any state is touched, so the button array after the cycle is
exactly the array before it (first conjunct); in particular, running a
successful cycle and then a failed one leaves the buttons of the successful
cycle intact (second conjunct). -/
theorem c6_usage_parse_failure_preserves_buttons :
    ∀ (bd : List ButtonDescriptor) (vd : List ValueDescriptor)
      (vo vo2 : Nat → Nat → Option Nat) (act : List UsagePair)
      (bs vs : List Nat),
      rhid_report_decode bd vd true none vo bs vs = (-1, bs, vs) ∧
      (rhid_report_decode bd vd true none vo2
          (rhid_report_decode bd vd true (some act) vo bs vs).2.1
          (rhid_report_decode bd vd true (some act) vo bs vs).2.2).2.1
        = (rhid_report_decode bd vd true (some act) vo bs vs).2.1 := by
  intro bd vd vo vo2 act bs vs
  exact ⟨rfl, rfl⟩

theorem button_mark_length (bd : List ButtonDescriptor) (bs : List Nat)
    (p : UsagePair) : (button_mark bd bs p).length = bs.length := by
  cases h : bd.find? (fun d => descMatches d p) with
  | none => simp [button_mark, h]
  | some d => simp [button_mark, h]

theorem button_fold_length (bd : List ButtonDescriptor) :
    ∀ (act : List UsagePair) (c : List Nat),
      (act.foldl (button_mark bd) c).length = c.length := by
  intro act
  induction act with
  | nil => intro c; rfl
  | cons p act ih =>
    intro c
    rw [List.foldl_cons, ih, button_mark_length]

theorem map_zero_of_length_eq :
    ∀ (b1 b2 : List Nat), b1.length = b2.length →
      b1.map (fun _ => (0 : Nat)) = b2.map (fun _ => (0 : Nat)) := by
  intro b1
  induction b1 with
  | nil =>
    intro b2 h
    cases b2 with
    | nil => rfl
    | cons y ys => simp at h
  | cons x xs ih =>
    intro b2 h
    cases b2 with
    | nil => simp at h
    | cons y ys =>
      simp only [List.map_cons]
      rw [ih ys (by simpa using h)]

theorem buttonPhase_length (bd : List ButtonDescriptor) (act : List UsagePair)
    (bs : List Nat) : (buttonPhase bd act bs).length = bs.length := by
  unfold buttonPhase
  rw [button_fold_length, List.length_map]

theorem buttonPhase_congr_length (bd : List ButtonDescriptor)
    (act : List UsagePair) (b1 b2 : List Nat) (h : b1.length = b2.length) :
    buttonPhase bd act b1 = buttonPhase bd act b2 := by
  unfold buttonPhase
  rw [map_zero_of_length_eq b1 b2 h]

theorem button_mark_twice (bd : List ButtonDescriptor) (bs : List Nat)
    (p : UsagePair) :
    button_mark bd (button_mark bd bs p) p = button_mark bd bs p := by
  cases h : bd.find? (fun d => descMatches d p) with
  | none => simp [button_mark, h]
  | some d => simp [button_mark, h, List.set_set]

theorem valuePhase_idem (vo : Nat → Nat → Option Nat) :
    ∀ (vd : List ValueDescriptor) (vs : List Nat),
      valuePhase vo vd (valuePhase vo vd vs) = valuePhase vo vd vs := by
  intro vd
  induction vd with
  | nil => intro vs; rfl
  | cons d ds ih =>
    intro vs
    cases vs with
    | nil => rfl
    | cons v vs =>
      simp only [valuePhase]
      cases h : vo d.page d.usage with
      | none => simp [h, ih]
      | some w => simp [h, ih]

/-- C7: decoding is idempotent.  First conjunct: running the decode of
rhid_report a second time on the same raw report data — same
report-availability, same HidP_GetUsagesEx answer, same HidP_GetUsageValue
answers — starting from the state the first run produced, returns the same
status and leaves the buttons and values arrays exactly as the first run
did.  Second conjunct: an active (page, usage) pair occurring twice marks
the same slot twice with 1, so the button phase's result is unchanged
(multiple active pairs mapping to one slot are idempotent). -/
theorem c7_report_decode_idempotent :
    ∀ (bd : List ButtonDescriptor) (vd : List ValueDescriptor) (avail : Bool)
      (us : Option (List UsagePair)) (vo : Nat → Nat → Option Nat)
      (bs vs : List Nat),
      rhid_report_decode bd vd avail us vo
          (rhid_report_decode bd vd avail us vo bs vs).2.1
          (rhid_report_decode bd vd avail us vo bs vs).2.2
        = rhid_report_decode bd vd avail us vo bs vs ∧
      (∀ (p : UsagePair) (act : List UsagePair),
        buttonPhase bd (p :: p :: act) bs = buttonPhase bd (p :: act) bs) := by
  intro bd vd avail us vo bs vs
  constructor
  · cases avail with
    | false => rfl
    | true =>
      cases us with
      | none => rfl
      | some act =>
        show (0, buttonPhase bd act (buttonPhase bd act bs),
              valuePhase vo vd (valuePhase vo vd vs))
            = (0, buttonPhase bd act bs, valuePhase vo vd vs)
        rw [buttonPhase_congr_length bd act _ bs (buttonPhase_length bd act bs),
            valuePhase_idem]
  · intro p act
    unfold buttonPhase
    rw [List.foldl_cons, List.foldl_cons, List.foldl_cons, button_mark_twice]

theorem valuePhase_get (vo : Nat → Nat → Option Nat) :
    ∀ (vd : List ValueDescriptor) (vs : List Nat) (i : Nat)
      (d : ValueDescriptor) (v : Nat),
      vd[i]? = some d → vs[i]? = some v →
      (valuePhase vo vd vs)[i]? =
        some (match vo d.page d.usage with | some w => w | none => v) := by
  intro vd
  induction vd with
  | nil => intro vs i d v hd hv; simp at hd
  | cons c cs ih =>
    intro vs i d v hd hv
    cases vs with
    | nil => simp at hv
    | cons x xs =>
      cases i with
      | zero =>
        rw [List.getElem?_cons_zero] at hd hv
        injection hd with hd
        injection hv with hv
        subst hd
        subst hv
        simp [valuePhase]
      | succ n =>
        rw [List.getElem?_cons_succ] at hd hv
        simpa [valuePhase] using ih xs n d v hd hv

/-- C5 as amended: the value phase runs only when a fresh raw report is
available AND the button phase's active-usage query succeeded; on a failed
query rhid_report returns -1 and skips the value phase entirely
(src/rhid_win.c:696), leaving every value slot untouched.  When the value
phase does run, each value descriptor's slot receives its decoded numeric
value, a per-descriptor query failure leaves only that slot's previous
value in place, and the call still returns 0 (no global failure). -/
theorem c5_value_phase_amended :
    ∀ (bd : List ButtonDescriptor) (vd : List ValueDescriptor)
      (act : List UsagePair) (vo : Nat → Nat → Option Nat)
      (bs vs : List Nat),
      rhid_report_decode bd vd true (some act) vo bs vs
        = (0, buttonPhase bd act bs, valuePhase vo vd vs) ∧
      rhid_report_decode bd vd true none vo bs vs = (-1, bs, vs) ∧
      (∀ (i : Nat) (d : ValueDescriptor) (v : Nat),
        vd[i]? = some d → vs[i]? = some v →
        (valuePhase vo vd vs)[i]? =
          some (match vo d.page d.usage with | some w => w | none => v)) := by
  intro bd vd act vo bs vs
  exact ⟨rfl, rfl, fun i d v hd hv => valuePhase_get vo vd vs i d v hd hv⟩

/-- Witness for c5_value_phase_amended at a concrete input: one value
descriptor whose query decodes 127 fills slot 0 with 127. -/
theorem c5_value_phase_amended_witness :
    (valuePhase c5Oracle [c5ValueDescriptor] [0])[0]? = some 127 := by
  exact (c5_value_phase_amended [] [c5ValueDescriptor] [] c5Oracle []
    [0]).2.2 0 c5ValueDescriptor 0 rfl rfl

theorem poll_idle (st : PollState) (sz rid cb : Nat) (s : ReadStart)
    (h : st.isReading = false) (hs : s ≠ ReadStart.failOther) :
    rhid_read_report st sz rid cb s = ⟨1, ⟨true, rid⟩, 1⟩ := by
  obtain ⟨ir, fb⟩ := st
  cases ir with
  | true => simp at h
  | false =>
    cases s with
    | failOther => exact absurd rfl hs
    | syncDone => rfl
    | ioPending => rfl

theorem poll_pending_incomplete (st : PollState) (sz rid cb : Nat)
    (s : ReadStart) (h : st.isReading = true) (h2 : cb < sz) :
    rhid_read_report st sz rid cb s = ⟨0, st, 0⟩ := by
  obtain ⟨ir, fb⟩ := st
  cases ir with
  | false => simp at h
  | true => simp [rhid_read_report, Nat.not_le.mpr h2]

/-- C3 as amended: a poll in the Idle state writes report_id into the
first byte of the raw-report buffer, issues exactly one underlying read,
transitions to ReadPending — but returns "fresh report available" (1) for
that call, so the decode proceeds on the stale buffer contents (first
conjunct).  Two consecutive polls on a device already in ReadPending whose
read has not completed return "no report" both times and issue no further
underlying read — the single read already in flight stays the only one
(second and third conjuncts). -/
theorem c3_poll_amended :
    (∀ (st : PollState) (sz rid cb : Nat) (s : ReadStart),
      st.isReading = false → s ≠ ReadStart.failOther →
      rhid_read_report st sz rid cb s = ⟨1, ⟨true, rid⟩, 1⟩) ∧
    (∀ (st : PollState) (sz rid cb : Nat) (s : ReadStart),
      st.isReading = true → cb < sz →
      rhid_read_report st sz rid cb s = ⟨0, st, 0⟩) ∧
    (∀ (st : PollState) (sz rid rid2 cb cb2 : Nat) (s s2 : ReadStart),
      st.isReading = true → cb < sz → cb2 < sz →
      (rhid_read_report st sz rid cb s).ret = 0 ∧
      (rhid_read_report st sz rid cb s).readsIssued = 0 ∧
      (rhid_read_report (rhid_read_report st sz rid cb s).st sz rid2 cb2
          s2).ret = 0 ∧
      (rhid_read_report (rhid_read_report st sz rid cb s).st sz rid2 cb2
          s2).readsIssued = 0) := by
  refine ⟨poll_idle, poll_pending_incomplete, ?_⟩
  intro st sz rid rid2 cb cb2 s s2 h h1 h2
  have e1 := poll_pending_incomplete st sz rid cb s h h1
  have e2 := poll_pending_incomplete st sz rid2 cb2 s2 h h2
  rw [e1]
  exact ⟨rfl, rfl, by rw [e2], by rw [e2]⟩

/-- Witness for c3_poll_amended at concrete inputs: an Idle poll with the
read queued, and a ReadPending poll with 5 of 8 bytes completed. -/
theorem c3_poll_amended_witness :
    rhid_read_report ⟨false, 7⟩ 8 3 0 ReadStart.ioPending
      = ⟨1, ⟨true, 3⟩, 1⟩ ∧
    rhid_read_report ⟨true, 3⟩ 8 4 5 ReadStart.syncDone = ⟨0, ⟨true, 3⟩, 0⟩ ∧
    (rhid_read_report (rhid_read_report ⟨true, 3⟩ 8 4 5
        ReadStart.syncDone).st 8 6 5 ReadStart.ioPending).readsIssued = 0 := by
  refine ⟨c3_poll_amended.1 ⟨false, 7⟩ 8 3 0 ReadStart.ioPending rfl
      (by decide),
    c3_poll_amended.2.1 ⟨true, 3⟩ 8 4 5 ReadStart.syncDone rfl (by decide),
    (c3_poll_amended.2.2 ⟨true, 3⟩ 8 4 6 5 5 ReadStart.syncDone
      ReadStart.ioPending rfl (by decide) (by decide)).2.2.2⟩

theorem enum_all_ok (maxB maxV : Nat) :
    ∀ (os : List DevOracle),
      (∀ x ∈ os, x.ifaceOk = true ∧ x.detailOk = true) →
      rhid_get_devices_loop maxB maxV os
        = some (os.map (processDevice maxB maxV)) := by
  intro os
  induction os with
  | nil => intro _; rfl
  | cons o os ih =>
    intro h
    have ho := h o (by simp)
    have hos : ∀ x ∈ os, x.ifaceOk = true ∧ x.detailOk = true :=
      fun x hx => h x (by simp [hx])
    simp [rhid_get_devices_loop, ho.1, ho.2, ih hos]

theorem attrStage_fields (o : DevOracle) :
    (attrStage o).report_size = 0 ∧ (attrStage o).button_count = 0 ∧
    (attrStage o).value_count = 0 ∧ (attrStage o).usage_page = 0 ∧
    (attrStage o).usage = 0 := by
  cases h : o.attrsOk <;> simp [attrStage, h, zeroDevice]

theorem buttonStage_reject_fields (maxB : Nat) (caps : DevCapsHeader)
    (o : DevOracle) (d : DeviceRec) (h : ButtonReject maxB caps o) :
    ∃ d2, buttonStage maxB caps o d = .error d2 ∧ d2.handle = false ∧
      d2.report_size = d.report_size ∧ d2.button_count = d.button_count ∧
      d2.value_count = d.value_count ∧ d2.usage_page = d.usage_page ∧
      d2.usage = d.usage := by
  obtain ⟨hpos, hsome, hlt⟩ := h
  obtain ⟨bcaps, hb⟩ := Option.isSome_iff_exists.mp hsome
  have h0 : ¬ caps.numberInputButtonCaps = 0 := Nat.pos_iff_ne_zero.mp hpos
  exact ⟨{ { d with cap_button_count := caps.numberInputButtonCaps } with
             handle := false },
    by simp [buttonStage, h0, hb, hlt], rfl, rfl, rfl, rfl, rfl, rfl⟩

theorem buttonStage_ok_fields (maxB : Nat) (caps : DevCapsHeader)
    (o : DevOracle) (d : DeviceRec) (h : ¬ ButtonReject maxB caps o) :
    ∃ d2, buttonStage maxB caps o d = .ok d2 ∧ d2.handle = d.handle ∧
      d2.report_size = d.report_size ∧ d2.button_count = d.button_count ∧
      d2.value_count = d.value_count ∧ d2.usage_page = d.usage_page ∧
      d2.usage = d.usage := by
  by_cases h0 : caps.numberInputButtonCaps = 0
  · exact ⟨d, by simp [buttonStage, h0], rfl, rfl, rfl, rfl, rfl, rfl⟩
  · cases hb : o.buttonCapsResult with
    | none =>
      exact ⟨{ d with cap_button_count := caps.numberInputButtonCaps },
        by simp [buttonStage, h0, hb], rfl, rfl, rfl, rfl, rfl, rfl⟩
    | some bcaps =>
      have hle : ¬ maxB < caps.numberInputButtonCaps :=
        fun hlt => h ⟨Nat.pos_of_ne_zero h0, by simp [hb], hlt⟩
      exact ⟨{ { d with cap_button_count := caps.numberInputButtonCaps } with
                 button_descriptors := (build_button_descriptors bcaps).1 },
        by simp [buttonStage, h0, hb, hle], rfl, rfl, rfl, rfl, rfl, rfl⟩

theorem valueStage_reject_fields (maxV : Nat) (caps : DevCapsHeader)
    (o : DevOracle) (d : DeviceRec) (h : ValueReject maxV caps o) :
    ∃ d2, valueStage maxV caps o d = .error d2 ∧ d2.handle = false ∧
      d2.report_size = d.report_size ∧ d2.button_count = d.button_count ∧
      d2.value_count = d.value_count ∧ d2.usage_page = d.usage_page ∧
      d2.usage = d.usage := by
  obtain ⟨hpos, hsome, hlt⟩ := h
  obtain ⟨vcaps, hv⟩ := Option.isSome_iff_exists.mp hsome
  have h0 : ¬ caps.numberInputValueCaps = 0 := Nat.pos_iff_ne_zero.mp hpos
  exact ⟨{ { d with cap_value_count := caps.numberInputValueCaps } with
             handle := false },
    by simp [valueStage, h0, hv, hlt], rfl, rfl, rfl, rfl, rfl, rfl⟩

theorem processDevice_abandoned (maxB maxV : Nat) (o : DevOracle)
    (h : DeviceScopedFailure maxB maxV o) :
    (processDevice maxB maxV o).handle = false ∧
    (processDevice maxB maxV o).report_size = 0 ∧
    (processDevice maxB maxV o).button_count = 0 ∧
    (processDevice maxB maxV o).value_count = 0 ∧
    (processDevice maxB maxV o).usage_page = 0 ∧
    (processDevice maxB maxV o).usage = 0 := by
  obtain ⟨ha1, ha2, ha3, ha4, ha5⟩ := attrStage_fields o
  cases ho : o.openOk with
  | false => simp [processDevice, ho, zeroDevice]
  | true =>
    cases hp : o.preparsedOk with
    | false => simp [processDevice, ho, hp, ha1, ha2, ha3, ha4, ha5]
    | true =>
      cases hc : o.capsResult with
      | none => simp [processDevice, ho, hp, hc, ha1, ha2, ha3, ha4, ha5]
      | some caps =>
        have hrej : ButtonReject maxB caps o ∨ ValueReject maxV caps o := by
          rcases h with h | h | h | ⟨caps2, hc2, hr⟩
          · simp [ho] at h
          · simp [hp] at h
          · simp [hc] at h
          · rw [hc] at hc2
            injection hc2 with e
            subst e
            exact hr
        by_cases hbr : ButtonReject maxB caps o
        · obtain ⟨d2, he, hh, h1, h2, h3, h4, h5⟩ :=
            buttonStage_reject_fields maxB caps o (attrStage o) hbr
          simp [processDevice, ho, hp, hc, he, hh, h1, h2, h3, h4, h5,
            ha1, ha2, ha3, ha4, ha5]
        · have hvr : ValueReject maxV caps o := hrej.resolve_left hbr
          obtain ⟨d2, he, hh, h1, h2, h3, h4, h5⟩ :=
            buttonStage_ok_fields maxB caps o (attrStage o) hbr
          obtain ⟨d3, he2, gh, g1, g2, g3, g4, g5⟩ :=
            valueStage_reject_fields maxV caps o d2 hvr
          simp [processDevice, ho, hp, hc, he, he2, gh, g1, g2, g3, g4, g5,
            h1, h2, h3, h4, h5, ha1, ha2, ha3, ha4, ha5]

/-- C8: a failure scoped to one device — both open attempts failed,
HidD_GetPreparsedData failed, HidP_GetCaps failed, or a capability maximum
exceeded — does not abort enumeration: the whole device list is still
processed, each device's record depending only on its own driver answers
(first conjunct), and the failed device is left with a NULL handle and its
capability-derived fields (report_size, button_count, value_count,
usage_page, usage) still zeroed from the initial memset, so the caller can
ignore it (remaining conjuncts). -/
theorem c8_enumeration_continues :
    ∀ (maxB maxV : Nat) (pre post : List DevOracle) (o : DevOracle),
      (∀ x ∈ pre ++ o :: post, x.ifaceOk = true ∧ x.detailOk = true) →
      DeviceScopedFailure maxB maxV o →
      rhid_get_devices_loop maxB maxV (pre ++ o :: post)
        = some ((pre ++ o :: post).map (processDevice maxB maxV)) ∧
      (processDevice maxB maxV o).handle = false ∧
      (processDevice maxB maxV o).report_size = 0 ∧
      (processDevice maxB maxV o).button_count = 0 ∧
      (processDevice maxB maxV o).value_count = 0 ∧
      (processDevice maxB maxV o).usage_page = 0 ∧
      (processDevice maxB maxV o).usage = 0 := by
  intro maxB maxV pre post o hall hf
  obtain ⟨h1, h2, h3, h4, h5, h6⟩ := processDevice_abandoned maxB maxV o hf
  exact ⟨enum_all_ok maxB maxV _ hall, h1, h2, h3, h4, h5, h6⟩

/-- Witness for c8_enumeration_continues: a three-device list whose middle
device fails to open is still enumerated in full, the failed device ending
with a NULL handle. -/
theorem c8_enumeration_continues_witness :
    rhid_get_devices_loop 1 1 ([plainOracle] ++ openFailOracle :: [plainOracle])
      = some (([plainOracle] ++ openFailOracle :: [plainOracle]).map
          (processDevice 1 1)) ∧
    (processDevice 1 1 openFailOracle).handle = false := by
  have h := c8_enumeration_continues 1 1 [plainOracle] [plainOracle]
    openFailOracle (by decide) (Or.inl rfl)
  exact ⟨h.1, h.2.1⟩

theorem cache_grow_step_le (s c : Nat) : s ≤ cache_grow_step s c := by
  unfold cache_grow_step
  split <;> omega

theorem button_cache_step_le (s : Nat) (o : DevOracle) :
    s ≤ button_cache_step s o := by
  unfold button_cache_step
  repeat' split
  all_goals first | exact cache_grow_step_le _ _ | exact Nat.le_refl s

theorem value_cache_step_le (maxB s : Nat) (o : DevOracle) :
    s ≤ value_cache_step maxB s o := by
  unfold value_cache_step
  repeat' split
  all_goals first | exact cache_grow_step_le _ _ | exact Nat.le_refl s

theorem le_button_cache_fold (l : List DevOracle) :
    ∀ s, s ≤ l.foldl button_cache_step s := by
  induction l with
  | nil => intro s; exact Nat.le_refl s
  | cons o l ih =>
    intro s
    exact Nat.le_trans (button_cache_step_le s o) (ih _)

theorem le_value_cache_fold (maxB : Nat) (l : List DevOracle) :
    ∀ s, s ≤ l.foldl (value_cache_step maxB) s := by
  induction l with
  | nil => intro s; exact Nat.le_refl s
  | cons o l ih =>
    intro s
    exact Nat.le_trans (value_cache_step_le maxB s o) (ih _)

/-- C9: the capability cache only ever grows.  The growth step reallocates
exactly when the incoming device's raw table count exceeds the stored
high-water mark, to exactly that count, and otherwise leaves the size alone
(first three conjuncts); consequently, over any sequence of enumeration
iterations — including several enumeration passes run back to back, which
is the concatenation of their oracle lists — both the button-capability
and the value-capability buffer sizes are monotonically non-decreasing and
compose across passes (last two conjuncts). -/
theorem c9_capability_cache_monotone :
    (∀ s c, s ≤ cache_grow_step s c) ∧
    (∀ s c, s < c → cache_grow_step s c = c) ∧
    (∀ s c, c ≤ s → cache_grow_step s c = s) ∧
    (∀ (init : Nat) (l1 l2 : List DevOracle),
      button_cache_run init (l1 ++ l2)
        = button_cache_run (button_cache_run init l1) l2 ∧
      button_cache_run init l1 ≤ button_cache_run init (l1 ++ l2)) ∧
    (∀ (maxB init : Nat) (l1 l2 : List DevOracle),
      value_cache_run maxB init (l1 ++ l2)
        = value_cache_run maxB (value_cache_run maxB init l1) l2 ∧
      value_cache_run maxB init l1 ≤ value_cache_run maxB init (l1 ++ l2)) := by
  refine ⟨cache_grow_step_le, ?_, ?_, ?_, ?_⟩
  · intro s c h
    simp [cache_grow_step, h]
  · intro s c h
    simp [cache_grow_step, Nat.not_lt.mpr h]
  · intro init l1 l2
    constructor
    · simp [button_cache_run, List.foldl_append]
    · rw [button_cache_run, button_cache_run, List.foldl_append]
      exact le_button_cache_fold l2 _
  · intro maxB init l1 l2
    constructor
    · simp [value_cache_run, List.foldl_append]
    · rw [value_cache_run, value_cache_run, List.foldl_append]
      exact le_value_cache_fold maxB l2 _

/-- Witness for c9_capability_cache_monotone at concrete sizes: a table of
5 entries regrows a cache of 1 to 5, a table of 3 entries leaves a cache of
5 alone. -/
theorem c9_capability_cache_monotone_witness :
    cache_grow_step 1 5 = 5 ∧ cache_grow_step 5 3 = 5 ∧
    1 ≤ cache_grow_step 1 5 := by
  exact ⟨c9_capability_cache_monotone.2.1 1 5 (by decide),
    c9_capability_cache_monotone.2.2.1 5 3 (by decide),
    c9_capability_cache_monotone.1 1 5⟩

/-- C10: rhid_get_buttons_state with a caller buffer smaller than
button_count returns -1 and leaves the buffer untouched; with a large
enough buffer it returns 0, the first button_count entries afterwards are
exactly the device's buttons array (button_count bytes copied) and the rest
of the buffer is untouched.  rhid_get_values_state behaves the same way
with value_count 32-bit words.  The length hypotheses are the rhid_open
allocation invariant (buttons and values hold exactly
button_count/value_count entries). -/
theorem c10_state_getters :
    ∀ (d : DeviceBuffers) (buf : List Nat) (size : Nat),
      (size < d.button_count → rhid_get_buttons_state d buf size = (-1, buf)) ∧
      (d.button_count ≤ size → d.buttons.length = d.button_count →
        (rhid_get_buttons_state d buf size).1 = 0 ∧
        (rhid_get_buttons_state d buf size).2.take d.button_count = d.buttons ∧
        (rhid_get_buttons_state d buf size).2.drop d.button_count
          = buf.drop d.button_count) ∧
      (size < d.value_count → rhid_get_values_state d buf size = (-1, buf)) ∧
      (d.value_count ≤ size → d.values.length = d.value_count →
        (rhid_get_values_state d buf size).1 = 0 ∧
        (rhid_get_values_state d buf size).2.take d.value_count = d.values ∧
        (rhid_get_values_state d buf size).2.drop d.value_count
          = buf.drop d.value_count) := by
  intro d buf size
  refine ⟨?_, ?_, ?_, ?_⟩
  · intro h
    simp [rhid_get_buttons_state, h]
  · intro h hlen
    have hnl : ¬ size < d.button_count := Nat.not_lt.mpr h
    have hb : d.buttons.take d.button_count = d.buttons := by
      rw [← hlen]
      exact List.take_length d.buttons
    refine ⟨by simp [rhid_get_buttons_state, hnl], ?_, ?_⟩
    · show (if size < d.button_count then ((-1 : Int), buf)
          else (0, d.buttons.take d.button_count ++
            buf.drop d.button_count)).2.take d.button_count = d.buttons
      rw [if_neg hnl]
      show (d.buttons.take d.button_count ++
        buf.drop d.button_count).take d.button_count = d.buttons
      rw [hb, ← hlen]
      exact List.take_left d.buttons (buf.drop d.buttons.length)
    · show (if size < d.button_count then ((-1 : Int), buf)
          else (0, d.buttons.take d.button_count ++
            buf.drop d.button_count)).2.drop d.button_count
          = buf.drop d.button_count
      rw [if_neg hnl]
      show (d.buttons.take d.button_count ++
        buf.drop d.button_count).drop d.button_count = buf.drop d.button_count
      rw [hb, ← hlen, List.drop_left]
  · intro h
    simp [rhid_get_values_state, h]
  · intro h hlen
    have hnl : ¬ size < d.value_count := Nat.not_lt.mpr h
    have hb : d.values.take d.value_count = d.values := by
      rw [← hlen]
      exact List.take_length d.values
    refine ⟨by simp [rhid_get_values_state, hnl], ?_, ?_⟩
    · show (if size < d.value_count then ((-1 : Int), buf)
          else (0, d.values.take d.value_count ++
            buf.drop d.value_count)).2.take d.value_count = d.values
      rw [if_neg hnl]
      show (d.values.take d.value_count ++
        buf.drop d.value_count).take d.value_count = d.values
      rw [hb, ← hlen]
      exact List.take_left d.values (buf.drop d.values.length)
    · show (if size < d.value_count then ((-1 : Int), buf)
          else (0, d.values.take d.value_count ++
            buf.drop d.value_count)).2.drop d.value_count
          = buf.drop d.value_count
      rw [if_neg hnl]
      show (d.values.take d.value_count ++
        buf.drop d.value_count).drop d.value_count = buf.drop d.value_count
      rw [hb, ← hlen, List.drop_left]

/-- Witness for c10_state_getters at a concrete device with 2 buttons and
1 value: a 1-entry buffer is refused with -1, a 3-entry buffer receives the
2 button bytes with its third entry untouched. -/
theorem c10_state_getters_witness :
    rhid_get_buttons_state ⟨2, 1, [7, 8], [9]⟩ [0, 0, 0] 1 = (-1, [0, 0, 0]) ∧
    (rhid_get_buttons_state ⟨2, 1, [7, 8], [9]⟩ [0, 0, 0] 3).1 = 0 ∧
    (rhid_get_buttons_state ⟨2, 1, [7, 8], [9]⟩ [0, 0, 0] 3).2.take 2
      = [7, 8] ∧
    (rhid_get_values_state ⟨2, 1, [7, 8], [9]⟩ [0, 0] 2).2.take 1 = [9] := by
  have h1 := (c10_state_getters ⟨2, 1, [7, 8], [9]⟩ [0, 0, 0] 1).1 (by decide)
  have h2 := (c10_state_getters ⟨2, 1, [7, 8], [9]⟩ [0, 0, 0] 3).2.1
    (by decide) rfl
  have h3 := ((c10_state_getters ⟨2, 1, [7, 8], [9]⟩ [0, 0] 2).2.2.2
    (by decide) rfl)
  exact ⟨h1, h2.1, h2.2.1, h3.2.1⟩
